import Mathlib

/-!
Shallow embedding of the zmq.rs multi-peer socket backend (src/backend.rs)
and the REP socket-type adapter (src/rep.rs), together with theorems
settling the specification claims about them.

Channels are modelled by their buffered contents plus a closed flag; the
unbounded dispatch loop of send_round_robin is modelled with explicit fuel
(`none` = the loop did not return within the given number of iterations);
a panic in the source is modelled as a distinguished `fatal` outcome (for
send_round_robin and recv) or as `none` (for operations whose only
non-returning behaviour is a panic).
-/

/-- Opaque peer identity token (`PeerIdentity` in the source), modelled as a
natural number; only equality is ever used. -/
abbrev PeerIdentity := Nat

/-- Raw byte payload of a frame (`Bytes`/`BytesMut` in the source). -/
abbrev Bytes := List Nat

/-- A single protocol frame (`ZmqMessage` in the source): raw bytes plus the
continuation (`more`) flag. -/
structure ZmqMessage where
  data : Bytes
  more : Bool
deriving DecidableEq

/-- Opaque greeting payload; its contents are never inspected by the code
under study. -/
abbrev GreetingData := Nat

/-- Opaque command payload; its contents are never inspected by the code
under study. -/
abbrev CommandData := Nat

/-- The codec message model (`codec::Message` in the source): a handshake
greeting, a protocol command, a single data frame, or a multipart sequence
(the last is named `Multipart` in backend.rs and `MultipartMessage` in
rep.rs; both denote this constructor). -/
inductive Message where
  | Greeting (g : GreetingData)
  | Command (c : CommandData)
  | Message (m : ZmqMessage)
  | Multipart (ms : List ZmqMessage)
deriving DecidableEq

/-- The error type (`ZmqError` in the source), restricted to the variants the
code under study constructs. `ReturnToSender`/`ReturnToSenderMultipart`
carry the undelivered payload back to the caller. -/
inductive ZmqError where
  | ReturnToSender (reason : String) (message : ZmqMessage)
  | ReturnToSenderMultipart (reason : String) (messages : List ZmqMessage)
  | OTHER (reason : String)
  | NO_MESSAGE
deriving DecidableEq

/-- Declared socket type (`SocketType` in the source; only the patterns
relevant to the studied code are listed). -/
inductive SocketType where
  | REP
  | REQ
deriving DecidableEq

/-- Per-peer record (`Peer` in backend.rs). Each mpsc channel half held by
the backend is modelled by the list of buffered messages, its bounded
capacity, and a flag recording whether the other half was dropped (closed).
The `_io_close_handle` field carries no data used by the studied code and is
omitted. -/
structure Peer where
  send_queue : List Message
  send_capacity : Nat
  send_closed : Bool
  recv_queue_in : List Message
  recv_closed : Bool
deriving DecidableEq

/-- Registry lookup (`DashMap::get_mut` keyed by identity). -/
def lookupPeer (id : PeerIdentity) : List (PeerIdentity × Peer) → Option Peer
  | [] => none
  | (k, p) :: rest => if k = id then some p else lookupPeer id rest

/-- Registry removal (`DashMap::remove`): drops the entry with the given
key. -/
def removePeer (id : PeerIdentity) : List (PeerIdentity × Peer) → List (PeerIdentity × Peer)
  | [] => []
  | (k, p) :: rest => if k = id then removePeer id rest else (k, p) :: removePeer id rest

/-- Registry insertion (`DashMap::insert`): replaces any existing entry for
the key. -/
def insertPeer (id : PeerIdentity) (p : Peer) (l : List (PeerIdentity × Peer)) :
    List (PeerIdentity × Peer) :=
  (id, p) :: removePeer id l

/-- In-place mutation of the entry found by `DashMap::get_mut`. -/
def updatePeer (id : PeerIdentity) (p : Peer) : List (PeerIdentity × Peer) → List (PeerIdentity × Peer)
  | [] => []
  | (k, q) :: rest => if k = id then (k, p) :: rest else (k, q) :: updatePeer id p rest

/-- Failure of `mpsc::Sender::try_send`: the bounded buffer is full, or the
receiver half is gone (disconnected). Either failure hands the undelivered
message back (`TrySendError::into_inner`). -/
inductive TrySendError where
  | full (m : Message)
  | disconnected (m : Message)
deriving DecidableEq

/-- Non-blocking send on a peer's outbound channel
(`peer.send_queue.try_send(message)` in backend.rs): fails with
`disconnected` if the receiver was dropped, with `full` if the buffer is at
capacity, and otherwise appends the message, returning the updated peer. -/
def Peer.try_send (p : Peer) (m : Message) : Except TrySendError Peer :=
  if p.send_closed then .error (.disconnected m)
  else if p.send_capacity ≤ p.send_queue.length then .error (.full m)
  else .ok { p with send_queue := p.send_queue ++ [m] }

/-- The socket backend state (`GenericSocketBackend` in backend.rs): the
peer registry, the round-robin rotation queue (a FIFO `SegQueue`; the list
head is the next element popped), the declared socket type, and the
administrative channel to the fair-queue merger (`peer_queue_in`), modelled
by the identities buffered in it, its capacity and its closed flag. -/
structure GenericSocketBackend where
  peers : List (PeerIdentity × Peer)
  round_robin : List PeerIdentity
  socket_type : SocketType
  peer_queue_in : List PeerIdentity
  peer_queue_capacity : Nat
  peer_queue_closed : Bool
deriving DecidableEq

/-- Result of one `send_round_robin` call: the identity of the chosen
recipient, a returned error, or a panic with the source's diagnostic
string. -/
inductive RRResult where
  | ok (id : PeerIdentity)
  | err (e : ZmqError)
  | fatal (diagnostic : String)
deriving DecidableEq

/-- One iteration of the `send_round_robin` loop body (backend.rs lines
55-95). It pops the head of the rotation queue. On an empty queue, a
Greeting or Command panics (`fatal`) and a data message is returned to the
sender carrying its payload. Otherwise the popped identity is looked up: a
missing registry entry is discarded and the loop continues; a found peer
receives a non-blocking send, where success re-pushes the identity to the
tail and returns it, a full queue re-pushes the identity and continues with
the recovered message, and a disconnected channel continues without
re-pushing. `inl` is a `return` of the source loop, `inr` a `continue`
carrying the message and the updated state. -/
def send_rr_once (message : Message) (b : GenericSocketBackend) :
    (RRResult × GenericSocketBackend) ⊕ (Message × GenericSocketBackend) :=
  match b.round_robin with
  | [] =>
    match message with
    | .Greeting _ => .inl (.fatal "Sending greeting is not supported", b)
    | .Command _ => .inl (.fatal "Sending commands is not supported", b)
    | .Message m =>
      .inl (.err (.ReturnToSender "Not connected to peers. Unable to send messages" m), b)
    | .Multipart ms =>
      .inl (.err (.ReturnToSenderMultipart "Not connected to peers. Unable to send messages" ms), b)
  | next_peer_id :: rest =>
    match lookupPeer next_peer_id b.peers with
    | some peer =>
      match peer.try_send message with
      | .ok peer2 =>
        .inl (.ok next_peer_id,
          { b with peers := updatePeer next_peer_id peer2 b.peers,
                   round_robin := rest ++ [next_peer_id] })
      | .error (.full m) => .inr (m, { b with round_robin := rest ++ [next_peer_id] })
      | .error (.disconnected m) => .inr (m, { b with round_robin := rest })
    | none => .inr (message, { b with round_robin := rest })

/-- `send_round_robin` (backend.rs lines 49-96): iterate the loop body, with
explicit fuel bounding the number of iterations (`none` = the loop did not
return within the fuel; the source loop is unbounded). -/
def send_round_robin :
    Nat → Message → GenericSocketBackend → Option (RRResult × GenericSocketBackend)
  | 0, _, _ => none
  | fuel + 1, message, b =>
    Sum.elim (fun out => some out) (fun mb => send_round_robin fuel mb.1 mb.2)
      (send_rr_once message b)

/-- `message_received` (backend.rs lines 101-108): looks the peer up and
forwards the message into its inbound queue with an awaited send (the await
suspends on a full buffer, so capacity does not fail it), panicking via
`expect("Failed to send")` when that channel is closed (`none` models the
panic); a missing registry entry is a silent no-op. -/
def message_received (peer_id : PeerIdentity) (message : Message)
    (b : GenericSocketBackend) : Option GenericSocketBackend :=
  match lookupPeer peer_id b.peers with
  | none => some b
  | some peer =>
    if peer.recv_closed then none
    else some { b with peers := updatePeer peer_id { peer with recv_queue_in := peer.recv_queue_in ++ [message] } b.peers }

/-- `shutdown` (backend.rs lines 114-116): clears the peer registry and
touches nothing else. -/
def shutdown (b : GenericSocketBackend) : GenericSocketBackend :=
  { b with peers := [] }

/-- `peer_connected` (backend.rs lines 121-145): registers a fresh peer
record with newly created bounded channels of capacity 100, pushes the
identity onto the rotation queue, and announces the new inbound receiver on
the administrative channel with `try_send(..).unwrap()` — `none` models the
unwrap panic when that channel is closed or full. -/
def peer_connected (peer_id : PeerIdentity) (b : GenericSocketBackend) :
    Option GenericSocketBackend :=
  if b.peer_queue_closed = true ∨ b.peer_queue_capacity ≤ b.peer_queue_in.length then none
  else some
    { b with
      peers := insertPeer peer_id
        { send_queue := [], send_capacity := 100, send_closed := false,
          recv_queue_in := [], recv_closed := false } b.peers,
      round_robin := b.round_robin ++ [peer_id],
      peer_queue_in := b.peer_queue_in ++ [peer_id] }

/-- `peer_disconnected` (backend.rs lines 147-149): removes the registry
entry; the rotation queue is not purged. -/
def peer_disconnected (peer_id : PeerIdentity) (b : GenericSocketBackend) :
    GenericSocketBackend :=
  { b with peers := removePeer peer_id b.peers }

/-- One item produced by the framed stream (`self._inner.next().await` in
rep.rs): a decoded message or a codec error. The end of the list models
stream termination (the stream yielding `None`). -/
abbrev StreamItem := Except ZmqError Message

/-- Outcome of `RepSocket::recv`: a payload, a returned error, or the
failure of the delimiter assertion (a panic in the source). -/
inductive RecvOutcome where
  | ok (payload : Bytes)
  | err (e : ZmqError)
  | fatal
deriving DecidableEq

namespace RepSocket

/-- `RepSocket::send` (rep.rs lines 16-30): copies the payload bytes into a
fresh buffer and builds the single multipart message that is written to the
framed stream — an empty delimiter frame with the continuation flag set,
followed by the payload frame without it. -/
def send (data : Bytes) : Message :=
  let f_data : Bytes := [] ++ data
  .Multipart [ { data := [], more := true }, { data := f_data, more := false } ]

/-- The sequence of messages one `RepSocket::send` call writes to the
stream: exactly the one multipart message. -/
def sendWire (data : Bytes) : List Message := [send data]

/-- `RepSocket::recv` (rep.rs lines 32-50): reads the delimiter frame —
stream end is NO_MESSAGE, a codec error propagates, a non-data variant is an
OTHER error, and a data frame must pass the assertion that it is empty with
the continuation flag set (`fatal` models the assertion panic) — then reads
the payload frame under the same variant dispatch and returns its bytes.
Returns the outcome with the unconsumed remainder of the stream. -/
def recv (stream : List StreamItem) : RecvOutcome × List StreamItem :=
  match stream with
  | [] => (.err .NO_MESSAGE, [])
  | first :: rest =>
    match first with
    | .error e => (.err e, rest)
    | .ok (.Message delim) =>
      if delim.data = [] ∧ delim.more = true then
        match rest with
        | [] => (.err .NO_MESSAGE, [])
        | second :: rest2 =>
          match second with
          | .error e => (.err e, rest2)
          | .ok (.Message m) => (.ok m.data, rest2)
          | .ok _ => (.err (.OTHER "Wrong message type received"), rest2)
      else (.fatal, rest)
    | .ok _ => (.err (.OTHER "Wrong message type received"), rest)

end RepSocket

/-! ### Scenario helpers and concrete sample states -/

/-- A single-frame data message carrying one byte, used in scenarios. -/
def dataMsg (n : Nat) : Message := .Message { data := [n], more := false }

/-- Dispatch a list of messages in order, each with the given fuel,
collecting the per-call results and threading the backend state. -/
def dispatchList (fuel : Nat) :
    List Message → GenericSocketBackend → Option (List RRResult × GenericSocketBackend)
  | [], b => some ([], b)
  | msg :: msgs, b =>
    match send_round_robin fuel msg b with
    | none => none
    | some (r, b2) =>
      match dispatchList fuel msgs b2 with
      | none => none
      | some (rs, b3) => some (r :: rs, b3)

/-- A freshly connected peer record: empty bounded channels of capacity 100,
both open. -/
def peerFresh : Peer :=
  { send_queue := [], send_capacity := 100, send_closed := false,
    recv_queue_in := [], recv_closed := false }

/-- An empty REP backend: no peers, empty rotation queue, healthy
administrative channel. -/
def b0 : GenericSocketBackend :=
  { peers := [], round_robin := [], socket_type := .REP, peer_queue_in := [],
    peer_queue_capacity := 100, peer_queue_closed := false }

/-- A backend with exactly one freshly connected peer (identity 0). -/
def bOnePeer : GenericSocketBackend :=
  { peers := [(0, peerFresh)], round_robin := [0], socket_type := .REP,
    peer_queue_in := [], peer_queue_capacity := 100, peer_queue_closed := false }

/-- The backend obtained from `b0` by `peer_connected 7`. -/
def bConn : GenericSocketBackend :=
  { peers := [(7, peerFresh)], round_robin := [7], socket_type := .REP,
    peer_queue_in := [7], peer_queue_capacity := 100, peer_queue_closed := false }

/-- Peers A, B, C (identities 0, 1, 2) connected in that order onto `b0`. -/
def connectedABC : Option GenericSocketBackend :=
  ((peer_connected 0 b0).bind (peer_connected 1)).bind (peer_connected 2)

/-- A peer whose outbound queue is at capacity (a slow consumer). -/
def peerFullA : Peer :=
  { send_queue := [dataMsg 99], send_capacity := 1, send_closed := false,
    recv_queue_in := [], recv_closed := false }

/-- Backend where peer 0 has a full outbound queue and peer 1 is fresh;
rotation order puts the stalled peer 0 first. -/
def bFullAB : GenericSocketBackend :=
  { peers := [(0, peerFullA), (1, peerFresh)], round_robin := [0, 1],
    socket_type := .REP, peer_queue_in := [], peer_queue_capacity := 100,
    peer_queue_closed := false }

/-- Backend whose sole peer (identity 3) has a closed inbound channel. -/
def bClosedRecv : GenericSocketBackend :=
  { peers := [(3, { peerFresh with recv_closed := true })],
    round_robin := [3], socket_type := .REP, peer_queue_in := [],
    peer_queue_capacity := 100, peer_queue_closed := false }

/-- Backend with two registered peers and both identities in the rotation
queue, used to watch `shutdown` leave stale rotation entries behind. -/
def bStale : GenericSocketBackend :=
  { peers := [(0, peerFresh), (1, peerFresh)], round_robin := [0, 1],
    socket_type := .REP, peer_queue_in := [0, 1], peer_queue_capacity := 100,
    peer_queue_closed := false }

/-! ### Registry lemmas -/

/-- Looking up after a removal: the removed key is gone, others unchanged. -/
theorem lookupPeer_removePeer (id id2 : PeerIdentity) (l : List (PeerIdentity × Peer)) :
    lookupPeer id2 (removePeer id l) = if id2 = id then none else lookupPeer id2 l := by
  induction l with
  | nil => simp [removePeer, lookupPeer]
  | cons kv rest ih =>
    obtain ⟨k, p⟩ := kv
    by_cases hk : k = id
    · subst hk
      simp only [removePeer, if_pos rfl]
      by_cases h2 : id2 = k
      · subst h2
        simp [ih]
      · simp [ih, h2, lookupPeer, Ne.symm h2]
    · simp only [removePeer, if_neg hk]
      by_cases h2 : id2 = id
      · subst h2
        simp [lookupPeer, hk, ih]
      · simp [lookupPeer, ih, h2]

/-- Looking up after an insertion: the inserted key maps to the new record,
others unchanged. -/
theorem lookupPeer_insertPeer (id id2 : PeerIdentity) (p : Peer)
    (l : List (PeerIdentity × Peer)) :
    lookupPeer id2 (insertPeer id p l) = if id2 = id then some p else lookupPeer id2 l := by
  unfold insertPeer
  by_cases h : id2 = id
  · simp [lookupPeer, h]
  · simp [lookupPeer, lookupPeer_removePeer, h, Ne.symm h]

/-- Updating one key leaves lookups of other keys unchanged. -/
theorem lookupPeer_updatePeer_ne (id id2 : PeerIdentity) (p : Peer)
    (l : List (PeerIdentity × Peer)) (h : id2 ≠ id) :
    lookupPeer id2 (updatePeer id p l) = lookupPeer id2 l := by
  induction l with
  | nil => simp [updatePeer]
  | cons kv rest ih =>
    obtain ⟨k, q⟩ := kv
    by_cases hk : k = id
    · subst hk
      simp [updatePeer, lookupPeer, Ne.symm h]
    · simp [updatePeer, lookupPeer, hk, ih]

/-- Updating a present key makes its lookup return the new record. -/
theorem lookupPeer_updatePeer_self (id : PeerIdentity) (p q : Peer)
    (l : List (PeerIdentity × Peer)) (h : lookupPeer id l = some q) :
    lookupPeer id (updatePeer id p l) = some p := by
  induction l with
  | nil => simp [lookupPeer] at h
  | cons kv rest ih =>
    obtain ⟨k, r⟩ := kv
    by_cases hk : k = id
    · simp [updatePeer, lookupPeer, hk]
    · simp [updatePeer, lookupPeer, hk] at h ⊢
      exact ih h

/-! ### try_send case analyses -/

/-- Successful try_send: the channel was open and the message was appended. -/
theorem try_send_ok_spec (p p2 : Peer) (m : Message) (h : p.try_send m = .ok p2) :
    p.send_closed = false ∧ p2 = { p with send_queue := p.send_queue ++ [m] } := by
  unfold Peer.try_send at h
  split at h
  · simp at h
  · split at h
    · simp at h
    · next hc _ =>
      refine ⟨by simpa using hc, ?_⟩
      injection h with h2
      exact h2.symm

/-- A disconnected try_send happens exactly when the channel is closed, and
hands back the message unmodified. -/
theorem try_send_disconnected_spec (p : Peer) (m m2 : Message)
    (h : p.try_send m = .error (.disconnected m2)) :
    p.send_closed = true ∧ m2 = m := by
  unfold Peer.try_send at h
  split at h
  · next hc => injection h with h2; cases h2; exact ⟨hc, rfl⟩
  · split at h
    · simp at h
    · simp at h

/-- A full try_send happens exactly when the channel is open and the buffer
at capacity, and hands back the message unmodified. -/
theorem try_send_full_spec (p : Peer) (m m2 : Message)
    (h : p.try_send m = .error (.full m2)) :
    p.send_closed = false ∧ p.send_capacity ≤ p.send_queue.length ∧ m2 = m := by
  unfold Peer.try_send at h
  split at h
  · simp at h
  · split at h
    · next hc hf => injection h with h2; cases h2; exact ⟨by simpa using hc, hf, rfl⟩
    · simp at h

/-! ### The rotation-queue invariant -/

/-- A peer is eligible for round-robin selection: it is registered and its
outbound channel is still open (a try-send can succeed or report a full
buffer, never a disconnect). -/
def eligible (b : GenericSocketBackend) (id : PeerIdentity) : Prop :=
  ∃ p, lookupPeer id b.peers = some p ∧ p.send_closed = false

/-- The rotation invariant: every eligible peer has at least one entry in
the rotation queue. -/
def rotationInv (b : GenericSocketBackend) : Prop :=
  ∀ id, eligible b id → id ∈ b.round_robin

/-! ### Step lemmas for send_round_robin -/

/-- Zero fuel: the loop has not returned. -/
theorem send_rr_zero (msg : Message) (b : GenericSocketBackend) :
    send_round_robin 0 msg b = none := rfl

/-- Loop body, empty rotation queue, Greeting: the source panics. -/
theorem once_empty_greeting (g : GreetingData) (b : GenericSocketBackend)
    (h : b.round_robin = []) :
    send_rr_once (.Greeting g) b = .inl (.fatal "Sending greeting is not supported", b) := by
  simp [send_rr_once, h]

/-- Loop body, empty rotation queue, Command: the source panics. -/
theorem once_empty_command (c : CommandData) (b : GenericSocketBackend)
    (h : b.round_robin = []) :
    send_rr_once (.Command c) b = .inl (.fatal "Sending commands is not supported", b) := by
  simp [send_rr_once, h]

/-- Loop body, empty rotation queue, single data frame: returned to sender. -/
theorem once_empty_message (m : ZmqMessage) (b : GenericSocketBackend)
    (h : b.round_robin = []) :
    send_rr_once (.Message m) b =
      .inl (.err (.ReturnToSender "Not connected to peers. Unable to send messages" m), b) := by
  simp [send_rr_once, h]

/-- Loop body, empty rotation queue, multipart data: returned to sender. -/
theorem once_empty_multipart (ms : List ZmqMessage) (b : GenericSocketBackend)
    (h : b.round_robin = []) :
    send_rr_once (.Multipart ms) b =
      .inl (.err (.ReturnToSenderMultipart "Not connected to peers. Unable to send messages" ms),
        b) := by
  simp [send_rr_once, h]

/-- Loop body, popped identity not registered: discard and continue. -/
theorem once_not_found (msg : Message) (b : GenericSocketBackend)
    (id : PeerIdentity) (rest : List PeerIdentity)
    (h : b.round_robin = id :: rest) (hl : lookupPeer id b.peers = none) :
    send_rr_once msg b = .inr (msg, { b with round_robin := rest }) := by
  simp [send_rr_once, h, hl]

/-- Loop body, popped identity found, non-blocking send succeeds. -/
theorem once_found_ok (msg : Message) (b : GenericSocketBackend)
    (id : PeerIdentity) (rest : List PeerIdentity) (peer peer2 : Peer)
    (h : b.round_robin = id :: rest) (hl : lookupPeer id b.peers = some peer)
    (hts : peer.try_send msg = .ok peer2) :
    send_rr_once msg b =
      .inl (.ok id,
        { b with peers := updatePeer id peer2 b.peers, round_robin := rest ++ [id] }) := by
  simp [send_rr_once, h, hl, hts]

/-- Loop body, popped identity found, queue full: re-push and continue. -/
theorem once_found_full (msg m2 : Message) (b : GenericSocketBackend)
    (id : PeerIdentity) (rest : List PeerIdentity) (peer : Peer)
    (h : b.round_robin = id :: rest) (hl : lookupPeer id b.peers = some peer)
    (hts : peer.try_send msg = .error (.full m2)) :
    send_rr_once msg b = .inr (m2, { b with round_robin := rest ++ [id] }) := by
  simp [send_rr_once, h, hl, hts]

/-- Loop body, popped identity found, channel closed: continue without
re-pushing. -/
theorem once_found_disconnected (msg m2 : Message) (b : GenericSocketBackend)
    (id : PeerIdentity) (rest : List PeerIdentity) (peer : Peer)
    (h : b.round_robin = id :: rest) (hl : lookupPeer id b.peers = some peer)
    (hts : peer.try_send msg = .error (.disconnected m2)) :
    send_rr_once msg b = .inr (m2, { b with round_robin := rest }) := by
  simp [send_rr_once, h, hl, hts]

/-- A returning loop body gives the call result at any positive fuel. -/
theorem send_rr_of_once_inl (n : Nat) (msg : Message) (b : GenericSocketBackend)
    (out : RRResult × GenericSocketBackend) (h : send_rr_once msg b = .inl out) :
    send_round_robin (n + 1) msg b = some out := by
  simp [send_round_robin, h]

/-- A continuing loop body makes the call recurse on the remaining fuel. -/
theorem send_rr_of_once_inr (n : Nat) (msg m2 : Message) (b b2 : GenericSocketBackend)
    (h : send_rr_once msg b = .inr (m2, b2)) :
    send_round_robin (n + 1) msg b = send_round_robin n m2 b2 := by
  simp [send_round_robin, h]

/-! ### Preservation of the rotation invariant -/

/-- The loop body preserves the rotation invariant in both its outcomes'
resulting states. -/
theorem rotationInv_send_rr_once (msg : Message) (b : GenericSocketBackend)
    (hinv : rotationInv b) :
    rotationInv (Sum.elim Prod.snd Prod.snd (send_rr_once msg b)) := by
  cases hq : b.round_robin with
  | nil =>
    cases msg with
    | Greeting g => rw [once_empty_greeting g b hq]; exact hinv
    | Command c => rw [once_empty_command c b hq]; exact hinv
    | Message m => rw [once_empty_message m b hq]; exact hinv
    | Multipart ms => rw [once_empty_multipart ms b hq]; exact hinv
  | cons pid rest =>
    cases hl : lookupPeer pid b.peers with
    | none =>
      rw [once_not_found msg b pid rest hq hl]
      intro id2 he
      obtain ⟨p, hp, hc⟩ := he
      replace hp : lookupPeer id2 b.peers = some p := hp
      have hmem := hinv id2 ⟨p, hp, hc⟩
      rw [hq] at hmem
      show id2 ∈ rest
      rcases List.mem_cons.mp hmem with h1 | h2
      · rw [h1] at hp
        rw [hl] at hp
        exact absurd hp (by simp)
      · exact h2
    | some peer =>
      cases hts : peer.try_send msg with
      | ok peer2 =>
        rw [once_found_ok msg b pid rest peer peer2 hq hl hts]
        intro id2 he
        obtain ⟨p, hp, hc⟩ := he
        replace hp : lookupPeer id2 (updatePeer pid peer2 b.peers) = some p := hp
        show id2 ∈ rest ++ [pid]
        by_cases hid : id2 = pid
        · rw [hid]
          simp
        · rw [lookupPeer_updatePeer_ne pid id2 peer2 b.peers hid] at hp
          have hmem := hinv id2 ⟨p, hp, hc⟩
          rw [hq] at hmem
          rcases List.mem_cons.mp hmem with h1 | h2
          · exact absurd h1 hid
          · simp only [List.mem_append]
            exact Or.inl h2
      | error e =>
        cases e with
        | full m2 =>
          rw [once_found_full msg m2 b pid rest peer hq hl hts]
          intro id2 he
          obtain ⟨p, hp, hc⟩ := he
          replace hp : lookupPeer id2 b.peers = some p := hp
          have hmem := hinv id2 ⟨p, hp, hc⟩
          rw [hq] at hmem
          show id2 ∈ rest ++ [pid]
          rcases List.mem_cons.mp hmem with h1 | h2
          · rw [h1]
            simp
          · simp only [List.mem_append]
            exact Or.inl h2
        | disconnected m2 =>
          rw [once_found_disconnected msg m2 b pid rest peer hq hl hts]
          intro id2 he
          obtain ⟨p, hp, hc⟩ := he
          replace hp : lookupPeer id2 b.peers = some p := hp
          have hmem := hinv id2 ⟨p, hp, hc⟩
          rw [hq] at hmem
          show id2 ∈ rest
          rcases List.mem_cons.mp hmem with h1 | h2
          · rw [h1] at hp
            rw [hl] at hp
            injection hp with hpe
            have hcl := (try_send_disconnected_spec peer msg m2 hts).1
            rw [← hpe, hcl] at hc
            exact absurd hc (by simp)
          · exact h2

/-- Any returning run of send_round_robin preserves the rotation
invariant. -/
theorem rotationInv_send_round_robin (fuel : Nat) :
    ∀ (msg : Message) (b : GenericSocketBackend) (r : RRResult)
      (b2 : GenericSocketBackend),
      send_round_robin fuel msg b = some (r, b2) → rotationInv b → rotationInv b2 := by
  induction fuel with
  | zero =>
    intro msg b r b2 h _
    simp [send_round_robin] at h
  | succ n ih =>
    intro msg b r b2 h hinv
    cases hstep : send_rr_once msg b with
    | inl out =>
      rw [send_rr_of_once_inl n msg b out hstep] at h
      injection h with h2
      subst h2
      have hpres := rotationInv_send_rr_once msg b hinv
      rw [hstep] at hpres
      exact hpres
    | inr mb =>
      obtain ⟨m2, bmid⟩ := mb
      rw [send_rr_of_once_inr n msg m2 b bmid hstep] at h
      have hpres := rotationInv_send_rr_once msg b hinv
      rw [hstep] at hpres
      exact ih m2 bmid r b2 h hpres

/-- message_received preserves the rotation invariant (in runs that do not
panic). -/
theorem rotationInv_message_received (pid : PeerIdentity) (m : Message)
    (b b2 : GenericSocketBackend) (h : message_received pid m b = some b2)
    (hinv : rotationInv b) : rotationInv b2 := by
  unfold message_received at h
  cases hl : lookupPeer pid b.peers with
  | none =>
    rw [hl] at h
    injection h with h2
    subst h2
    exact hinv
  | some peer =>
    simp only [hl] at h
    split at h
    · exact absurd h (by simp)
    · injection h with h2
      subst h2
      intro id2 he
      obtain ⟨p, hp, hc⟩ := he
      replace hp :
          lookupPeer id2
            (updatePeer pid { peer with recv_queue_in := peer.recv_queue_in ++ [m] } b.peers) =
          some p := hp
      show id2 ∈ b.round_robin
      by_cases hid : id2 = pid
      · rw [hid] at hp ⊢
        rw [lookupPeer_updatePeer_self pid
          { peer with recv_queue_in := peer.recv_queue_in ++ [m] } peer b.peers hl] at hp
        injection hp with hpe
        refine hinv pid ⟨peer, hl, ?_⟩
        rw [← hpe] at hc
        exact hc
      · rw [lookupPeer_updatePeer_ne pid id2 _ b.peers hid] at hp
        exact hinv id2 ⟨p, hp, hc⟩

/-- peer_connected preserves the rotation invariant (in runs that do not
panic): the new peer's identity is pushed onto the rotation queue. -/
theorem rotationInv_peer_connected (pid : PeerIdentity) (b b2 : GenericSocketBackend)
    (h : peer_connected pid b = some b2) (hinv : rotationInv b) : rotationInv b2 := by
  unfold peer_connected at h
  split at h
  · exact absurd h (by simp)
  · injection h with h2
    subst h2
    intro id2 he
    obtain ⟨p, hp, hc⟩ := he
    replace hp :
        lookupPeer id2 (insertPeer pid
          { send_queue := [], send_capacity := 100, send_closed := false,
            recv_queue_in := [], recv_closed := false } b.peers) = some p := hp
    rw [lookupPeer_insertPeer] at hp
    show id2 ∈ b.round_robin ++ [pid]
    by_cases hid : id2 = pid
    · rw [hid]
      simp
    · rw [if_neg hid] at hp
      have hmem := hinv id2 ⟨p, hp, hc⟩
      simp only [List.mem_append]
      exact Or.inl hmem

/-- peer_disconnected preserves the rotation invariant: removing the
registry entry only shrinks the set of eligible peers. -/
theorem rotationInv_peer_disconnected (pid : PeerIdentity) (b : GenericSocketBackend)
    (hinv : rotationInv b) : rotationInv (peer_disconnected pid b) := by
  intro id2 he
  obtain ⟨p, hp, hc⟩ := he
  replace hp : lookupPeer id2 (removePeer pid b.peers) = some p := hp
  rw [lookupPeer_removePeer] at hp
  show id2 ∈ b.round_robin
  split at hp
  · exact absurd hp (by simp)
  · exact hinv id2 ⟨p, hp, hc⟩

/-- shutdown trivially preserves the rotation invariant: no peer remains
registered, so no peer is eligible. -/
theorem rotationInv_shutdown (b : GenericSocketBackend) : rotationInv (shutdown b) := by
  intro id2 he
  obtain ⟨p, hp, hc⟩ := he
  replace hp : lookupPeer id2 [] = some p := hp
  simp [lookupPeer] at hp

/-! ### Claim theorems -/

/-- Claim C1, counterexample: the claim says a Greeting dispatched through
send_round_robin is rejected before reaching any peer's outbound queue and
never returns a successful recipient, regardless of how many peers are
connected. With one fresh peer connected, the call returns that peer as a
successful recipient and the Greeting lands in its outbound queue. -/
theorem claim_C1_counterexample :
    send_round_robin 1 (.Greeting 0) bOnePeer =
      some (.ok 0,
        { bOnePeer with peers := [(0, { peerFresh with send_queue := [.Greeting 0] })] }) := by
  decide

/-- Claim C1 (amended): send_round_robin signals the fatal contract
violation for a Greeting or Command only when the rotation-queue pop finds
the queue empty; in that case the call aborts with the corresponding
diagnostic and the state is unchanged, so nothing reaches any peer queue. -/
theorem claim_C1_amended (b : GenericSocketBackend) (g : GreetingData) (c : CommandData)
    (fuel : Nat) (h : b.round_robin = []) :
    send_round_robin (fuel + 1) (.Greeting g) b =
      some (.fatal "Sending greeting is not supported", b) ∧
    send_round_robin (fuel + 1) (.Command c) b =
      some (.fatal "Sending commands is not supported", b) :=
  ⟨send_rr_of_once_inl fuel _ b _ (once_empty_greeting g b h),
   send_rr_of_once_inl fuel _ b _ (once_empty_command c b h)⟩

/-- Witness for the amended claim C1 at the empty backend. -/
theorem claim_C1_amended_witness :
    send_round_robin 1 (.Greeting 0) b0 =
      some (.fatal "Sending greeting is not supported", b0) ∧
    send_round_robin 1 (.Command 0) b0 =
      some (.fatal "Sending commands is not supported", b0) :=
  claim_C1_amended b0 0 0 0 rfl

/-- Claim C4: dispatching a data message (single-frame or multipart) with an
empty rotation queue returns the distinguishable no-connected-peers error,
and the error value carries exactly the payload that was passed in, with
the state unchanged. -/
theorem claim_C4 (b : GenericSocketBackend) (m : ZmqMessage) (ms : List ZmqMessage)
    (fuel : Nat) (h : b.round_robin = []) :
    send_round_robin (fuel + 1) (.Message m) b =
      some (.err (.ReturnToSender "Not connected to peers. Unable to send messages" m), b) ∧
    send_round_robin (fuel + 1) (.Multipart ms) b =
      some (.err (.ReturnToSenderMultipart "Not connected to peers. Unable to send messages" ms),
        b) :=
  ⟨send_rr_of_once_inl fuel _ b _ (once_empty_message m b h),
   send_rr_of_once_inl fuel _ b _ (once_empty_multipart ms b h)⟩

/-- Witness for claim C4 at the empty backend. -/
theorem claim_C4_witness :
    send_round_robin 1 (.Message { data := [5], more := false }) b0 =
      some (.err (.ReturnToSender "Not connected to peers. Unable to send messages"
        { data := [5], more := false }), b0) ∧
    send_round_robin 1 (.Multipart [{ data := [6], more := false }]) b0 =
      some (.err (.ReturnToSenderMultipart "Not connected to peers. Unable to send messages"
        [{ data := [6], more := false }]), b0) :=
  claim_C4 b0 { data := [5], more := false } [{ data := [6], more := false }] 0 rfl

/-- Claim C7: after peer_disconnected removes an identity's registry entry,
any message_received for that identity is a no-op — it does not panic,
signals no error and changes nothing — for every backend state, including
states where the identity still appears in the rotation queue. -/
theorem claim_C7 (pid : PeerIdentity) (m : Message) (b : GenericSocketBackend) :
    message_received pid m (peer_disconnected pid b) = some (peer_disconnected pid b) := by
  have hl : lookupPeer pid (peer_disconnected pid b).peers = none := by
    show lookupPeer pid (removePeer pid b.peers) = none
    rw [lookupPeer_removePeer]
    simp
  simp [message_received, hl]

/-- Claim C8: RepSocket send writes exactly one multipart message of exactly
two frames: an empty frame with the continuation flag set, then a frame
carrying exactly the payload bytes with the continuation flag cleared. -/
theorem claim_C8 (d : Bytes) :
    RepSocket.sendWire d =
      [Message.Multipart [{ data := [], more := true }, { data := d, more := false }]] := by
  simp [RepSocket.sendWire, RepSocket.send]

/-- Claim C9: when an identity is registered but the peer's inbound channel
is closed (its receiver was dropped), message_received panics via the
expect rather than no-oping or returning an error. -/
theorem claim_C9 (pid : PeerIdentity) (m : Message) (b : GenericSocketBackend) (p : Peer)
    (hp : lookupPeer pid b.peers = some p) (hc : p.recv_closed = true) :
    message_received pid m b = none := by
  simp [message_received, hp, hc]

/-- Witness for claim C9 at a concrete backend whose sole peer has a closed
inbound channel. -/
theorem claim_C9_witness : message_received 3 (dataMsg 1) bClosedRecv = none :=
  claim_C9 3 (dataMsg 1) bClosedRecv { peerFresh with recv_closed := true } (by decide) rfl

/-- Claim C2, counterexample: the claim says any first-frame shape other
than the delimiter is surfaced to the caller of recv as a recoverable error
and never a panic. A first data frame with a non-empty payload and a clear
continuation flag fails the source's assertion, i.e. panics. -/
theorem claim_C2_counterexample :
    RepSocket.recv [Except.ok (.Message { data := [1], more := false })] = (.fatal, []) := rfl

/-- Claim C2 (amended): a first frame of a non-data variant, or a codec
error, is surfaced to the caller of recv as a recoverable call-level error,
and stream end is NO_MESSAGE; but a first data frame that is not the
empty-with-continuation delimiter fails an assertion (a panic), not an
error; on the valid delimiter followed by a data frame, the second frame's
bytes are returned as the payload. -/
theorem claim_C2_amended (m m2 : ZmqMessage) (e : ZmqError) (g : GreetingData)
    (c : CommandData) (ms : List ZmqMessage) (rest : List StreamItem) :
    (¬(m.data = [] ∧ m.more = true) →
      RepSocket.recv (Except.ok (.Message m) :: rest) = (.fatal, rest)) ∧
    (m.data = [] ∧ m.more = true →
      RepSocket.recv (Except.ok (.Message m) :: Except.ok (.Message m2) :: rest) =
        (.ok m2.data, rest)) ∧
    RepSocket.recv (Except.ok (.Greeting g) :: rest) =
      (.err (.OTHER "Wrong message type received"), rest) ∧
    RepSocket.recv (Except.ok (.Command c) :: rest) =
      (.err (.OTHER "Wrong message type received"), rest) ∧
    RepSocket.recv (Except.ok (.Multipart ms) :: rest) =
      (.err (.OTHER "Wrong message type received"), rest) ∧
    RepSocket.recv (Except.error e :: rest) = (.err e, rest) ∧
    RepSocket.recv ([] : List StreamItem) = (.err .NO_MESSAGE, []) := by
  refine ⟨?_, ?_, ?_, ?_, ?_, ?_, ?_⟩
  · intro hnot
    simp [RepSocket.recv, hnot]
  · rintro ⟨h1, h2⟩
    simp [RepSocket.recv, h1, h2]
  · simp [RepSocket.recv]
  · simp [RepSocket.recv]
  · simp [RepSocket.recv]
  · simp [RepSocket.recv]
  · simp [RepSocket.recv]

/-- Witness for the amended claim C2: a malformed first data frame panics,
and a valid delimiter-then-payload pair returns the payload bytes. -/
theorem claim_C2_amended_witness :
    RepSocket.recv [Except.ok (.Message { data := [2], more := true })] = (.fatal, []) ∧
    RepSocket.recv [Except.ok (.Message { data := [], more := true }),
      Except.ok (.Message { data := [7, 8], more := false })] = (.ok [7, 8], []) :=
  ⟨(claim_C2_amended { data := [2], more := true } { data := [], more := false }
      .NO_MESSAGE 0 0 [] []).1 (by simp),
   (claim_C2_amended { data := [], more := true } { data := [7, 8], more := false }
      .NO_MESSAGE 0 0 [] []).2.1 ⟨rfl, rfl⟩⟩

/-- Claim C3: every operation of the backend preserves the invariant that
each eligible peer (registered with an open outbound channel) has at least
one entry in the rotation queue: peer_connected pushes the new identity,
peer_disconnected and shutdown only shrink eligibility, message_received
leaves both structures alone, and send_round_robin re-pushes the popped
identity after a successful dispatch and after a full-queue skip. -/
theorem claim_C3 :
    (∀ pid b b2, peer_connected pid b = some b2 → rotationInv b → rotationInv b2) ∧
    (∀ pid b, rotationInv b → rotationInv (peer_disconnected pid b)) ∧
    (∀ pid m b b2, message_received pid m b = some b2 → rotationInv b → rotationInv b2) ∧
    (∀ b, rotationInv (shutdown b)) ∧
    (∀ fuel msg b r b2,
      send_round_robin fuel msg b = some (r, b2) → rotationInv b → rotationInv b2) :=
  ⟨fun pid b b2 h hinv => rotationInv_peer_connected pid b b2 h hinv,
   fun pid b hinv => rotationInv_peer_disconnected pid b hinv,
   fun pid m b b2 h hinv => rotationInv_message_received pid m b b2 h hinv,
   fun b => rotationInv_shutdown b,
   fun fuel msg b r b2 h hinv => rotationInv_send_round_robin fuel msg b r b2 h hinv⟩

/-- The empty backend satisfies the rotation invariant. -/
theorem rotationInv_b0 : rotationInv b0 := by
  intro id2 he
  obtain ⟨p, hp, hc⟩ := he
  replace hp : lookupPeer id2 [] = some p := hp
  simp [lookupPeer] at hp

/-- Witness for claim C3: connecting peer 7 to the empty backend yields a
state satisfying the invariant, as does shutting that state down. -/
theorem claim_C3_witness : rotationInv bConn ∧ rotationInv (shutdown bConn) :=
  ⟨claim_C3.1 7 b0 bConn (by decide) rotationInv_b0, claim_C3.2.2.2.1 bConn⟩

/-- Claim C5: connecting peers A, B, C (identities 0, 1, 2) in that order
and dispatching four data messages yields recipients A, B, C, A; each
successful dispatch pops the head identity, re-pushes it to the tail (final
rotation order 1, 2, 0) and enqueues the message on the chosen peer. -/
theorem claim_C5 :
    (Option.bind connectedABC
        (dispatchList 1 [dataMsg 10, dataMsg 11, dataMsg 12, dataMsg 13])).map
      (fun x => (x.1, x.2.round_robin, x.2.peers.map (fun kv => (kv.1, kv.2.send_queue)))) =
      some ([.ok 0, .ok 1, .ok 2, .ok 0], [1, 2, 0],
        [(2, [dataMsg 12]), (1, [dataMsg 11]), (0, [dataMsg 10, dataMsg 13])]) := by
  decide

/-- Claim C6: when the popped identity's peer has a full outbound queue, the
identity is re-pushed to the rotation tail (staying eligible) and the very
same message is retried against the next rotation entry, the peers registry
unchanged — so a stalled peer does not prevent delivery to other peers. -/
theorem claim_C6 (b : GenericSocketBackend) (pid : PeerIdentity)
    (rest : List PeerIdentity) (peer : Peer) (msg : Message) (fuel : Nat)
    (hq : b.round_robin = pid :: rest) (hp : lookupPeer pid b.peers = some peer)
    (hopen : peer.send_closed = false)
    (hfull : peer.send_capacity ≤ peer.send_queue.length) :
    send_round_robin (fuel + 1) msg b =
      send_round_robin fuel msg { b with round_robin := rest ++ [pid] } := by
  have hts : peer.try_send msg = .error (.full msg) := by
    unfold Peer.try_send
    rw [hopen]
    simp [hfull]
  exact send_rr_of_once_inr fuel msg msg b _ (once_found_full msg msg b pid rest peer hq hp hts)

/-- Witness for claim C6: with peer 0 full and peer 1 fresh, the dispatch
skips peer 0, re-pushes it, and delivers the same message to peer 1. -/
theorem claim_C6_witness :
    send_round_robin 2 (dataMsg 55) bFullAB =
      send_round_robin 1 (dataMsg 55) { bFullAB with round_robin := [1, 0] } ∧
    send_round_robin 1 (dataMsg 55) { bFullAB with round_robin := [1, 0] } =
      some (.ok 1,
        { bFullAB with
          peers := [(0, peerFullA), (1, { peerFresh with send_queue := [dataMsg 55] })],
          round_robin := [0, 1] }) :=
  ⟨claim_C6 bFullAB 0 [1] peerFullA (dataMsg 55) 1 rfl (by decide) rfl (by decide), by decide⟩

/-- Draining run: with an empty registry, send_round_robin pops and
discards every (stale) rotation entry and then returns the data message to
the sender, leaving the rotation queue empty. -/
theorem send_rr_drain (q : List PeerIdentity) :
    ∀ (fuel : Nat) (b : GenericSocketBackend) (m : ZmqMessage),
      b.peers = [] → b.round_robin = q → q.length < fuel →
      send_round_robin fuel (.Message m) b =
        some (.err (.ReturnToSender "Not connected to peers. Unable to send messages" m),
          { b with round_robin := [] }) := by
  induction q with
  | nil =>
    intro fuel b m hpe hq hf
    cases fuel with
    | zero => exact absurd hf (by simp)
    | succ n =>
      rw [send_rr_of_once_inl n _ b _ (once_empty_message m b hq)]
      rw [← hq]
  | cons pid rest ih =>
    intro fuel b m hpe hq hf
    cases fuel with
    | zero => exact absurd hf (by simp)
    | succ n =>
      have hl : lookupPeer pid b.peers = none := by
        rw [hpe]
        rfl
      rw [send_rr_of_once_inr n _ _ b _ (once_not_found (.Message m) b pid rest hq hl)]
      have hlen : rest.length < n := by
        simp at hf
        omega
      exact ih n { b with round_robin := rest } m hpe rfl hlen

/-- Claim C10: shutdown empties the peer registry and modifies nothing
else — rotation queue, socket type and administrative channel are all
unchanged — and a subsequent data dispatch pops and discards the stale
rotation entries until the queue is empty, then returns the
no-connected-peers error. -/
theorem claim_C10 (b : GenericSocketBackend) (m : ZmqMessage) (fuel : Nat)
    (hfuel : b.round_robin.length < fuel) :
    (shutdown b).peers = [] ∧
    (shutdown b).round_robin = b.round_robin ∧
    (shutdown b).socket_type = b.socket_type ∧
    (shutdown b).peer_queue_in = b.peer_queue_in ∧
    (shutdown b).peer_queue_capacity = b.peer_queue_capacity ∧
    (shutdown b).peer_queue_closed = b.peer_queue_closed ∧
    send_round_robin fuel (.Message m) (shutdown b) =
      some (.err (.ReturnToSender "Not connected to peers. Unable to send messages" m),
        { shutdown b with round_robin := [] }) :=
  ⟨rfl, rfl, rfl, rfl, rfl, rfl,
   send_rr_drain b.round_robin fuel (shutdown b) m rfl rfl hfuel⟩

/-- Witness for claim C10 at a backend with two peers and two rotation
entries. -/
theorem claim_C10_witness :
    send_round_robin 3 (.Message { data := [9], more := false }) (shutdown bStale) =
      some (.err (.ReturnToSender "Not connected to peers. Unable to send messages"
        { data := [9], more := false }), { shutdown bStale with round_robin := [] }) :=
  (claim_C10 bStale { data := [9], more := false } 3 (by decide)).2.2.2.2.2.2
